import Mathlib

/-!
Verification of `pymatgen/util/plotting.py` (plotting convenience helpers).

The module is glue around matplotlib.  We shallowly embed each helper as a
pure function that returns the ordered list of external-library calls it
performs (an effect trace), together with its return value and a possible
raised exception.  Python floats are modelled by rationals where the source
only does field arithmetic, and by real numbers where `math.sqrt` enters
(the golden-ratio height computation).  Python `int()` truncation is
modelled explicitly.
-/

namespace Plotting

/-- Abstract matplotlib figure handle (only its identity matters here). -/
abbrev Fig := Nat

/-- Calls made on the figure / pyplot by the `add_fig_kwargs` wrapper,
in the order the source performs them. -/
inductive FigCall where
  | suptitle (title : String)
  | set_size_inches (w h : ℚ) (kwargs : List (String × ℚ))
  | savefig (path : String)
  | tight_layout
  | plt_show
  deriving DecidableEq, Repr

/-- The keyword options popped by `add_fig_kwargs.wrapper`:
`title` (default `None`), `size_kwargs` (default `None`, a dict modelled as
an association list), `show` (default `True`, here `show_fig`),
`savefig` (default `None`), `tight_layout` (default `False`). -/
structure FigKwargs where
  title : Option String
  size_kwargs : Option (List (String × ℚ))
  show_fig : Bool
  savefig : Option String
  tight_layout : Bool
  deriving DecidableEq, Repr

/-- Python `dict.pop(key)` without a default: returns the value stored at
`key` and the remaining dict, or `none` (a `KeyError`) when absent. -/
def dict_pop (key : String) : List (String × ℚ) → Option (ℚ × List (String × ℚ))
  | [] => none
  | (k, v) :: rest =>
    if k = key then some (v, rest)
    else match dict_pop key rest with
      | some (w, d) => some (w, (k, v) :: d)
      | none => none

/-- Python truthiness of the `savefig` option: `None` and the empty
string are falsy, any other string is truthy. -/
def savefig_truthy : Option String → Bool
  | none => false
  | some s => s != ""

/-- Result of one run of the wrapper: the calls performed on the figure,
the exception raised by the wrapper itself (`dict.pop` on `size_kwargs`
can raise `KeyError`), and the returned value. -/
structure WrapperResult where
  calls : List FigCall
  error : Option String
  ret : Option Fig
  deriving DecidableEq, Repr

/-- Line `if title is not None: fig.suptitle(title)` of the wrapper. -/
def title_calls (o : FigKwargs) : List FigCall :=
  match o.title with
  | some t => [FigCall.suptitle t]
  | none => []

/-- The calls after `set_size_inches`:
`if savefig: fig.savefig(savefig)`, `if tight_layout: fig.tight_layout()`,
`if show: plt.show()`. -/
def tail_calls (o : FigKwargs) : List FigCall :=
  (match o.savefig with
   | some s => if s = "" then [] else [FigCall.savefig s]
   | none => [])
  ++ (if o.tight_layout then [FigCall.tight_layout] else [])
  ++ (if o.show_fig then [FigCall.plt_show] else [])

/-- The body of `add_fig_kwargs.wrapper`, with the wrapped function's
result abstracted as `figResult`.  If the wrapped function returns `None`
the wrapper returns immediately; otherwise it applies title, resize
(popping `"w"` and `"h"` from `size_kwargs` and forwarding the rest),
save, tight-layout and show in that order, and returns the figure. -/
def wrapper (o : FigKwargs) (figResult : Option Fig) : WrapperResult :=
  match figResult with
  | none => ⟨[], none, none⟩
  | some fig =>
    match o.size_kwargs with
    | none => ⟨title_calls o ++ tail_calls o, none, some fig⟩
    | some d =>
      match dict_pop "w" d with
      | none => ⟨title_calls o, some "KeyError: w", none⟩
      | some (w, d1) =>
        match dict_pop "h" d1 with
        | none => ⟨title_calls o, some "KeyError: h", none⟩
        | some (h, d2) =>
          ⟨title_calls o ++ [FigCall.set_size_inches w h d2] ++ tail_calls o,
           none, some fig⟩

example :
    wrapper ⟨some "t", some [("w", 3), ("h", 4), ("forward", 1)], true, some "x.png", true⟩
      (some 0) =
    ⟨[FigCall.suptitle "t", FigCall.set_size_inches 3 4 [("forward", 1)],
      FigCall.savefig "x.png", FigCall.tight_layout, FigCall.plt_show],
     none, some 0⟩ := rfl

example :
    wrapper ⟨none, some [("dpi", 100)], true, some "x.png", true⟩ (some 0) =
    ⟨[], some "KeyError: w", none⟩ := rfl

example : wrapper ⟨some "t", none, true, some "", false⟩ (some 2) =
    ⟨[FigCall.suptitle "t", FigCall.plt_show], none, some 2⟩ := rfl

/-! ### `pretty_plot` -/

/-- Python `int()` applied to a float: truncation toward zero. -/
noncomputable def pyInt (x : ℝ) : ℤ := if 0 ≤ x then ⌊x⌋ else ⌈x⌉

/-- The constant `golden_ratio = (math.sqrt(5) - 1.0) / 2.0` from `pretty_plot`. -/
noncomputable def golden_ratio : ℝ := (Real.sqrt 5 - 1) / 2

/-- The height used by `pretty_plot`: `if not height: height =
int(width * golden_ratio)`.  A missing height (`None`) and a zero height
are both falsy in Python, so both are replaced by the computed value. -/
noncomputable def resolve_height (width : ℝ) (height : Option ℝ) : ℝ :=
  match height with
  | none => (pyInt (width * golden_ratio) : ℝ)
  | some h => if h = 0 then (pyInt (width * golden_ratio) : ℝ) else h

/-- Calls `pretty_plot` makes on pyplot / the axes, in source order. -/
inductive PltCall where
  | figure (w h : ℝ) (dpi : Option ℝ)
  | set_prop_cycle (cycle_mod : String) (cycle_set : String)
  | gcf_set_size_inches (w h : ℝ)
  | xticks (fontsize : ℤ)
  | yticks (fontsize : ℤ)
  | set_title (size : ℝ)
  | set_xlabel (size : ℤ)
  | set_ylabel (size : ℤ)

/-- Effect trace of `pretty_plot(width, height, plt, dpi, color_cycle)`.
`plt_supplied` is whether the `plt` argument is not `None`.  When no plt
is supplied, a new figure of the resolved size is created and its axes
get the requested color cycle; otherwise the current figure of the
supplied plt is resized.  Then tick, title and label font sizes are set:
`ticksize = int(width * 2.5)`, title `size=width * 4`,
`labelsize = int(width * 3)`. -/
noncomputable def pretty_plot (width : ℝ) (height : Option ℝ)
    (plt_supplied : Bool) (dpi : Option ℝ) (color_cycle : String × String) :
    List PltCall :=
  let ticksize := pyInt (width * 2.5)
  let h := resolve_height width height
  (if plt_supplied then
    [PltCall.gcf_set_size_inches width h]
  else
    [PltCall.figure width h dpi,
     PltCall.set_prop_cycle color_cycle.1 color_cycle.2])
  ++ [PltCall.xticks ticksize, PltCall.yticks ticksize,
      PltCall.set_title (width * 4),
      PltCall.set_xlabel (pyInt (width * 3)),
      PltCall.set_ylabel (pyInt (width * 3))]

/-! ### `get_axarray_fig_plt` -/

/-- Abstract matplotlib Axes handle. -/
abbrev Ax := Nat

/-- The `ax_array is not None` branch of `get_axarray_fig_plt`:
`if squeeze: ax_array = np.array(ax_array).ravel();
if len(ax_array) == 1: ax_array = ax_array[1]`.
The supplied array is modelled as the (already flat) list of its Axes;
`ravel` of a flat array is the array itself.  Indexing position 1 of a
length-1 array raises `IndexError`. -/
def get_axarray_existing (ax_array : List Ax) (squeeze : Bool) :
    Except String (List Ax ⊕ Ax) :=
  if squeeze then
    if ax_array.length = 1 then
      match ax_array.get? 1 with
      | some a => Except.ok (Sum.inr a)
      | none => Except.error "IndexError"
    else Except.ok (Sum.inl ax_array)
  else Except.ok (Sum.inl ax_array)

example : get_axarray_existing [7] true = Except.error "IndexError" := rfl

example : get_axarray_existing [7, 8] true = Except.ok (Sum.inl [7, 8]) := rfl

/-- Position of each wrapper action in the source order. -/
def rank : FigCall → ℕ
  | FigCall.suptitle _ => 0
  | FigCall.set_size_inches _ _ _ => 1
  | FigCall.savefig _ => 2
  | FigCall.tight_layout => 3
  | FigCall.plt_show => 4

/-- An option set exercising every wrapper action. -/
def o_all : FigKwargs :=
  ⟨some "t", some [("w", 3), ("h", 4), ("forward", 1)], true, some "x.png", true⟩

/-- An option set with `show=False` and everything else off. -/
def o_noshow : FigKwargs := ⟨none, none, false, none, false⟩

/-- An option set with no `savefig` and `show`, `tight_layout` on. -/
def o_nosave : FigKwargs := ⟨none, none, true, none, true⟩

/-- An option set whose `size_kwargs` dictionary lacks the `"w"` key. -/
def o_badsize : FigKwargs := ⟨none, some [("dpi", 100)], true, none, false⟩

/-! ### Helper lemmas about the wrapper -/

/-- A run of the wrapper on a real figure that raised no exception either
had no `size_kwargs`, or popped `"w"` and `"h"` from it successfully. -/
lemma wrapper_ok_cases (o : FigKwargs) (f : Fig)
    (h : (wrapper o (some f)).error = none) :
    (o.size_kwargs = none ∧
      wrapper o (some f) = ⟨title_calls o ++ tail_calls o, none, some f⟩) ∨
    (∃ d w d1 hh d2, o.size_kwargs = some d ∧
      dict_pop "w" d = some (w, d1) ∧ dict_pop "h" d1 = some (hh, d2) ∧
      wrapper o (some f) =
        ⟨title_calls o ++ [FigCall.set_size_inches w hh d2] ++ tail_calls o,
         none, some f⟩) := by
  rcases o with ⟨t, sk, sh, sv, tl⟩
  rcases sk with _ | d
  · exact Or.inl ⟨rfl, rfl⟩
  · refine Or.inr ?_
    rcases hw : dict_pop "w" d with _ | ⟨w, d1⟩
    · simp [wrapper, hw] at h
    · rcases hh2 : dict_pop "h" d1 with _ | ⟨hh, d2⟩
      · simp [wrapper, hw, hh2] at h
      · exact ⟨d, w, d1, hh, d2, rfl, hw, hh2, by simp [wrapper, hw, hh2]⟩

lemma count_plt_show_title (o : FigKwargs) :
    (title_calls o).count FigCall.plt_show = 0 := by
  rcases o with ⟨t, _, _, _, _⟩
  rcases t <;> simp [title_calls]

lemma count_plt_show_tail (o : FigKwargs) :
    (tail_calls o).count FigCall.plt_show = if o.show_fig then 1 else 0 := by
  rcases o with ⟨_, _, sh, sv, tl⟩
  rcases sv with _ | s <;> rcases sh <;> rcases tl <;>
    simp [tail_calls, List.count_append] <;> split <;> simp

lemma savefig_mem_tail (o : FigKwargs) (p : String) :
    FigCall.savefig p ∈ tail_calls o ↔ (o.savefig = some p ∧ p ≠ "") := by
  rcases o with ⟨_, _, sh, sv, tl⟩
  rcases sv with _ | s <;> rcases sh <;> rcases tl <;>
    simp [tail_calls] <;> aesop

lemma count_savefig_tail (o : FigKwargs) (p : String) :
    (tail_calls o).count (FigCall.savefig p) =
      if o.savefig = some p ∧ p ≠ "" then 1 else 0 := by
  rcases o with ⟨_, _, sh, sv, tl⟩
  rcases sv with _ | s <;> rcases sh <;> rcases tl <;>
    simp [tail_calls, List.count_append] <;>
    rcases eq_or_ne s "" with hs | hs <;>
    rcases eq_or_ne s p with hp | hp <;>
    simp_all [List.count_cons]

lemma savefig_not_mem_title (o : FigKwargs) (p : String) :
    FigCall.savefig p ∉ title_calls o := by
  rcases o with ⟨t, _, _, _, _⟩
  rcases t <;> simp [title_calls]

lemma suptitle_mem_title (o : FigKwargs) (t : String) :
    FigCall.suptitle t ∈ title_calls o ↔ o.title = some t := by
  rcases o with ⟨t0, _, _, _, _⟩
  rcases t0 <;> simp [title_calls, eq_comm]

lemma suptitle_not_mem_tail (o : FigKwargs) (t : String) :
    FigCall.suptitle t ∉ tail_calls o := by
  rcases o with ⟨_, _, sh, sv, tl⟩
  rcases sv with _ | s <;> rcases sh <;> rcases tl <;>
    simp [tail_calls]

lemma tight_mem_tail (o : FigKwargs) :
    FigCall.tight_layout ∈ tail_calls o ↔ o.tight_layout = true := by
  rcases o with ⟨_, _, sh, sv, tl⟩
  rcases sv with _ | s <;> rcases sh <;> rcases tl <;>
    simp [tail_calls]

lemma plt_show_mem_tail (o : FigKwargs) :
    FigCall.plt_show ∈ tail_calls o ↔ o.show_fig = true := by
  rcases o with ⟨_, _, sh, sv, tl⟩
  rcases sv with _ | s <;> rcases sh <;> rcases tl <;>
    simp [tail_calls]

lemma tight_not_mem_title (o : FigKwargs) :
    FigCall.tight_layout ∉ title_calls o := by
  rcases o with ⟨t, _, _, _, _⟩
  rcases t <;> simp [title_calls]

lemma plt_show_not_mem_title (o : FigKwargs) :
    FigCall.plt_show ∉ title_calls o := by
  rcases o with ⟨t, _, _, _, _⟩
  rcases t <;> simp [title_calls]

lemma set_size_not_mem_title (o : FigKwargs) (w h : ℚ)
    (d : List (String × ℚ)) :
    FigCall.set_size_inches w h d ∉ title_calls o := by
  rcases o with ⟨t, _, _, _, _⟩
  rcases t <;> simp [title_calls]

lemma set_size_not_mem_tail (o : FigKwargs) (w h : ℚ)
    (d : List (String × ℚ)) :
    FigCall.set_size_inches w h d ∉ tail_calls o := by
  rcases o with ⟨_, _, sh, sv, tl⟩
  rcases sv with _ | s <;> rcases sh <;> rcases tl <;>
    simp [tail_calls]

/-- Every call a wrapper run performs comes from the title block, is a
resize call, or comes from the save/tight-layout/show block. -/
lemma wrapper_calls_cases (o : FigKwargs) (f : Fig) :
    ∀ x ∈ (wrapper o (some f)).calls,
      x ∈ title_calls o ∨ (∃ w hh d, x = FigCall.set_size_inches w hh d) ∨
      x ∈ tail_calls o := by
  intro x hx
  rcases hsk : o.size_kwargs with _ | d
  · simp only [wrapper, hsk, List.mem_append] at hx
    tauto
  · rcases hw : dict_pop "w" d with _ | ⟨w, d1⟩
    · simp only [wrapper, hsk, hw] at hx
      tauto
    · rcases hh2 : dict_pop "h" d1 with _ | ⟨hh, d2⟩
      · simp only [wrapper, hsk, hw, hh2] at hx
        tauto
      · simp only [wrapper, hsk, hw, hh2, List.append_assoc, List.mem_append,
          List.mem_singleton] at hx
        rcases hx with h | h | h
        · tauto
        · exact Or.inr (Or.inl ⟨w, hh, d2, h⟩)
        · tauto

/-! ### Real-number facts for `pretty_plot` -/

lemma sqrt_five_bounds : 2 ≤ Real.sqrt 5 ∧ Real.sqrt 5 < 9 / 4 := by
  have hsq : Real.sqrt 5 ^ 2 = 5 := Real.sq_sqrt (by norm_num)
  have hnn : 0 ≤ Real.sqrt 5 := Real.sqrt_nonneg 5
  constructor
  · nlinarith
  · nlinarith [sq_nonneg (Real.sqrt 5 - 9 / 4)]

lemma golden_ratio_nonneg : 0 ≤ golden_ratio := by
  have h := sqrt_five_bounds.1
  unfold golden_ratio
  linarith

lemma pyInt_nonneg_eq_floor (x : ℝ) (hx : 0 ≤ x) : pyInt x = ⌊x⌋ := by
  unfold pyInt
  exact if_pos hx

lemma floor_eight_golden : pyInt (8 * golden_ratio) = 4 := by
  obtain ⟨h2, h9⟩ := sqrt_five_bounds
  have hg : (8 : ℝ) * golden_ratio = 4 * Real.sqrt 5 - 4 := by
    unfold golden_ratio; ring
  rw [pyInt_nonneg_eq_floor _ (by rw [hg]; nlinarith)]
  rw [Int.floor_eq_iff]
  constructor <;> rw [hg] <;> push_cast <;> nlinarith

/-- Popping returns a value actually stored in the dict, and the
remaining dict is made of entries of the original dict. -/
lemma dict_pop_mem (key : String) (d : List (String × ℚ)) (v : ℚ)
    (rest : List (String × ℚ)) (h : dict_pop key d = some (v, rest)) :
    (key, v) ∈ d ∧ ∀ x ∈ rest, x ∈ d := by
  induction d generalizing rest with
  | nil => cases h
  | cons kv tl ih =>
    obtain ⟨k, u⟩ := kv
    by_cases hk : k = key
    · subst hk
      simp only [dict_pop, if_pos rfl] at h
      injection h with h2
      injection h2 with hv hr
      subst hv; subst hr
      exact ⟨List.mem_cons_self _ _, fun x hx => List.mem_cons_of_mem _ hx⟩
    · simp only [dict_pop, if_neg hk] at h
      rcases hp : dict_pop key tl with _ | ⟨v2, rest2⟩
      · rw [hp] at h; cases h
      · rw [hp] at h
        injection h with h2
        injection h2 with hv hr
        subst hv; subst hr
        obtain ⟨hmem, hsub⟩ := ih _ hp
        refine ⟨List.mem_cons_of_mem _ hmem, ?_⟩
        intro x hx
        rcases List.mem_cons.1 hx with rfl | hx2
        · exact List.mem_cons_self _ _
        · exact List.mem_cons_of_mem _ (hsub x hx2)

/-! ### Claim theorems -/

/-- C8: when the wrapped function returns `None`, the `add_fig_kwargs`
wrapper returns `None` immediately and performs no post-processing call
at all — no title, no resize, no save, no tight-layout and no display —
whatever the options (in particular even with the default `show=True`). -/
theorem C8_none_result_short_circuits (o : FigKwargs) :
    (wrapper o none).calls = [] ∧ (wrapper o none).ret = none ∧
    (wrapper o none).error = none :=
  ⟨rfl, rfl, rfl⟩

/-- C1: for a decorated function that returns a figure, `show=False`
never leads to a `plt.show()` call (even when the wrapper aborts on a
`size_kwargs` `KeyError`), and a run that completes performs exactly one
`plt.show()` call when `show` is `True` (the default) and none when it is
`False`. -/
theorem C1_show_option_controls_display (o : FigKwargs) (f : Fig) :
    (o.show_fig = false → FigCall.plt_show ∉ (wrapper o (some f)).calls) ∧
    ((wrapper o (some f)).error = none →
      (wrapper o (some f)).calls.count FigCall.plt_show =
        if o.show_fig then 1 else 0) := by
  constructor
  · intro hs hmem
    rcases wrapper_calls_cases o f _ hmem with h | ⟨w, hh, d, h⟩ | h
    · exact plt_show_not_mem_title o h
    · cases h
    · rw [(plt_show_mem_tail o).1 h] at hs
      cases hs
  · intro h
    rcases wrapper_ok_cases o f h with ⟨_, heq⟩ |
      ⟨d, w, d1, hh, d2, _, _, _, heq⟩ <;>
      rw [heq] <;>
      simp [List.count_append, count_plt_show_title, count_plt_show_tail]

/-- Witness for C1 at concrete inputs: `o_noshow` has `show=False` and
triggers no display call; `o_all` has `show=True`, completes, and counts
exactly one display call. -/
theorem C1_show_option_controls_display_witness :
    FigCall.plt_show ∉ (wrapper o_noshow (some 0)).calls ∧
    (wrapper o_all (some 0)).calls.count FigCall.plt_show =
      (if o_all.show_fig then 1 else 0) :=
  ⟨(C1_show_option_controls_display o_noshow 0).1 rfl,
   (C1_show_option_controls_display o_all 0).2 rfl⟩

/-- C2: for a decorated function that returns a figure, a truthy
`savefig=p` on a completing run triggers exactly one `fig.savefig` call,
with exactly the path `p`; a missing or falsy `savefig` never triggers a
save call. -/
theorem C2_savefig_triggers_one_save (o : FigKwargs) (f : Fig) (p : String) :
    (o.savefig = some p → p ≠ "" → (wrapper o (some f)).error = none →
      ((wrapper o (some f)).calls.count (FigCall.savefig p) = 1 ∧
       ∀ q, q ≠ p → FigCall.savefig q ∉ (wrapper o (some f)).calls)) ∧
    (savefig_truthy o.savefig = false →
      ∀ q, FigCall.savefig q ∉ (wrapper o (some f)).calls) := by
  constructor
  · intro hsv hp h
    constructor
    · rcases wrapper_ok_cases o f h with ⟨_, heq⟩ |
        ⟨d, w, d1, hh, d2, _, _, _, heq⟩ <;>
        rw [heq] <;>
        simp [List.count_append, count_savefig_tail, hsv, hp,
          List.count_eq_zero_of_not_mem (savefig_not_mem_title o p)]
    · intro q hq hmem
      rcases wrapper_calls_cases o f _ hmem with hm | ⟨w, hh, d, hm⟩ | hm
      · exact savefig_not_mem_title o q hm
      · cases hm
      · obtain ⟨hq2, _⟩ := (savefig_mem_tail o q).1 hm
        rw [hsv] at hq2
        exact hq (Option.some_injective _ hq2.symm)
  · intro hfalsy q hmem
    rcases wrapper_calls_cases o f _ hmem with hm | ⟨w, hh, d, hm⟩ | hm
    · exact savefig_not_mem_title o q hm
    · cases hm
    · obtain ⟨hq2, hq3⟩ := (savefig_mem_tail o q).1 hm
      rw [hq2] at hfalsy
      simp [savefig_truthy] at hfalsy
      exact hq3 hfalsy

/-- Witness for C2 at concrete inputs: `o_all` saves once to `"x.png"`
and to no other path; `o_nosave` (no `savefig`) never saves. -/
theorem C2_savefig_triggers_one_save_witness :
    ((wrapper o_all (some 0)).calls.count (FigCall.savefig "x.png") = 1 ∧
      ∀ q, q ≠ "x.png" → FigCall.savefig q ∉ (wrapper o_all (some 0)).calls) ∧
    (∀ q, FigCall.savefig q ∉ (wrapper o_nosave (some 0)).calls) :=
  ⟨(C2_savefig_triggers_one_save o_all 0 "x.png").1 rfl (by decide) rfl,
   (C2_savefig_triggers_one_save o_nosave 0 "x.png").2 rfl⟩

/-- C9 (code bug): `get_axarray_fig_plt` given a non-`None` `ax_array`
holding exactly one Axes and `squeeze=True` does NOT return the single
element: the source indexes position 1 of the raveled length-1 array
(`ax_array = ax_array[1]`), which is out of bounds and raises
`IndexError`; position 0 — which the squeeze semantics intends — does
hold the element. -/
theorem C9_singleton_squeeze_raises (a : Ax) :
    get_axarray_existing [a] true = Except.error "IndexError" ∧
    [a].get? 0 = some a :=
  ⟨rfl, rfl⟩

/-- C10: `pretty_plot` treats every falsy `height` the same way: both
`height=None` and `height=0` are replaced by `int(width * golden_ratio)`;
at `width=8` the explicit `height=0` argument yields 4, not 0. -/
theorem C10_falsy_height_treated_as_unset (width : ℝ) :
    resolve_height width (some 0) = (pyInt (width * golden_ratio) : ℝ) ∧
    resolve_height width none = (pyInt (width * golden_ratio) : ℝ) ∧
    resolve_height 8 (some 0) = 4 := by
  refine ⟨by simp [resolve_height], by simp [resolve_height], ?_⟩
  have h : resolve_height 8 (some 0) = (pyInt (8 * golden_ratio) : ℝ) := by
    simp [resolve_height]
  rw [h, floor_eight_golden]
  norm_num

/-- C3 counterexample: at `width=8` with no height, the code computes
`int(8 * golden_ratio) = 4`, while the spec's formula `round(8*0.618)`
evaluates to `5`, not `4`: the derivation uses truncation, not
rounding. -/
theorem C3_round_formula_counterexample :
    resolve_height 8 none = 4 ∧ round ((8 : ℚ) * (0.618 : ℚ)) = 5 := by
  constructor
  · have h1 : resolve_height 8 none = (pyInt (8 * golden_ratio) : ℝ) := by
      simp [resolve_height]
    rw [h1, floor_eight_golden]
    norm_num
  · norm_num [round_eq]

/-- C3 (amended): with `width=8` and no height the figure height is
`int(8 * golden_ratio) = 4` inches, where `int` truncates; in general an
omitted height is the truncation of `width * golden_ratio` with
`golden_ratio = (sqrt 5 - 1)/2 ≈ 0.618`, i.e. for nonnegative widths it
is the greatest integer not exceeding `width * golden_ratio`. -/
theorem C3_height_from_golden_ratio :
    resolve_height 8 none = 4 ∧
    ∀ width : ℝ, 0 ≤ width →
      resolve_height width none ≤ width * golden_ratio ∧
      width * golden_ratio < resolve_height width none + 1 := by
  constructor
  · have h1 : resolve_height 8 none = (pyInt (8 * golden_ratio) : ℝ) := by
      simp [resolve_height]
    rw [h1, floor_eight_golden]
    norm_num
  · intro w hw
    have hg : 0 ≤ w * golden_ratio := mul_nonneg hw golden_ratio_nonneg
    have h1 : resolve_height w none = (pyInt (w * golden_ratio) : ℝ) := by
      simp [resolve_height]
    rw [h1, pyInt_nonneg_eq_floor _ hg]
    exact ⟨Int.floor_le _, Int.lt_floor_add_one _⟩

/-- Witness for C3 at `width=8`: the floor bounds hold there. -/
theorem C3_height_from_golden_ratio_witness :
    resolve_height 8 none ≤ 8 * golden_ratio ∧
    8 * golden_ratio < resolve_height 8 none + 1 :=
  C3_height_from_golden_ratio.2 8 (by norm_num)

/-- C7: when a plt handle is supplied, `pretty_plot` creates no new
figure and sets no color cycle, and resizes the handle's current figure
to `(width, resolved height)`; a new figure — with the requested color
cycle — arises only when no handle is supplied, and then no
current-figure resize happens. -/
theorem C7_plt_handle_reuse (width : ℝ) (height : Option ℝ)
    (dpi : Option ℝ) (cc : String × String) :
    (∀ w hh d, PltCall.figure w hh d ∉ pretty_plot width height true dpi cc) ∧
    (∀ m c, PltCall.set_prop_cycle m c ∉ pretty_plot width height true dpi cc) ∧
    PltCall.gcf_set_size_inches width (resolve_height width height) ∈
      pretty_plot width height true dpi cc ∧
    (∀ w hh, PltCall.gcf_set_size_inches w hh ∉
      pretty_plot width height false dpi cc) ∧
    PltCall.figure width (resolve_height width height) dpi ∈
      pretty_plot width height false dpi cc ∧
    PltCall.set_prop_cycle cc.1 cc.2 ∈ pretty_plot width height false dpi cc := by
  simp [pretty_plot]

/-- C6 counterexample: at `width=2.5`, `pretty_plot` sets the tick font
size to `int(2.5*2.5) = 6`, not `2.5*2.5 = 6.25`, and the label size to
`int(2.5*3) = 7`, not `7.5`: the sizes are truncated, not exactly
linear. -/
theorem C6_truncation_counterexample :
    PltCall.xticks 6 ∈
      pretty_plot (5 / 2) none false none ("qualitative", "Set1_9") ∧
    ((6 : ℤ) : ℝ) ≠ (5 / 2) * 2.5 ∧
    PltCall.set_xlabel 7 ∈
      pretty_plot (5 / 2) none false none ("qualitative", "Set1_9") ∧
    ((7 : ℤ) : ℝ) ≠ (5 / 2) * 3 := by
  have h625 : pyInt ((5 / 2 : ℝ) * 2.5) = 6 := by
    rw [pyInt_nonneg_eq_floor _ (by norm_num), Int.floor_eq_iff]
    norm_num
  have h75 : pyInt ((5 / 2 : ℝ) * 3) = 7 := by
    rw [pyInt_nonneg_eq_floor _ (by norm_num), Int.floor_eq_iff]
    norm_num
  refine ⟨?_, by norm_num, ?_, by norm_num⟩ <;>
    simp [pretty_plot, h625, h75]

/-- C6 (amended): in `pretty_plot` the tick font size is
`int(width * 2.5)`, the axis-label size is `int(width * 3)` — both
truncated to an integer, hence linear only up to truncation — while the
title size is exactly `width * 4`; and these are the only such calls in
the trace. -/
theorem C6_font_sizes_truncated_linear (width : ℝ) (height : Option ℝ)
    (p : Bool) (dpi : Option ℝ) (cc : String × String) :
    (∀ n : ℤ, PltCall.xticks n ∈ pretty_plot width height p dpi cc ↔
      n = pyInt (width * 2.5)) ∧
    (∀ n : ℤ, PltCall.yticks n ∈ pretty_plot width height p dpi cc ↔
      n = pyInt (width * 2.5)) ∧
    (∀ s : ℝ, PltCall.set_title s ∈ pretty_plot width height p dpi cc ↔
      s = width * 4) ∧
    (∀ n : ℤ, PltCall.set_xlabel n ∈ pretty_plot width height p dpi cc ↔
      n = pyInt (width * 3)) ∧
    (∀ n : ℤ, PltCall.set_ylabel n ∈ pretty_plot width height p dpi cc ↔
      n = pyInt (width * 3)) := by
  cases p <;> simp [pretty_plot]

/-- The wrapper's call list — title block, optional resize, then the
save/tight/show block — is strictly increasing in source position. -/
lemma chain_rank_blocks (o : FigKwargs) (mid : List FigCall)
    (hmid : mid = [] ∨ ∃ w hh d, mid = [FigCall.set_size_inches w hh d]) :
    List.Chain' (· < ·) ((title_calls o ++ (mid ++ tail_calls o)).map rank) := by
  rcases o with ⟨t, sk, sh, sv, tl⟩
  rcases hmid with rfl | ⟨w, hh, d, rfl⟩ <;>
    rcases t with _ | t <;>
    rcases sv with _ | s <;>
    rcases sh <;> rcases tl <;>
    try rcases eq_or_ne s "" with rfl | hs
  all_goals
    simp_all [title_calls, tail_calls, rank, List.chain'_cons]

/-- C5: on every completing run of the wrapper on a figure, the applied
actions occur in the fixed source order — title, resize, save,
tight-layout, show (their ranks strictly increase along the trace) — and
each action occurs exactly when its option is set: `suptitle` iff a title
was given, `set_size_inches` iff `size_kwargs` was given, `savefig` iff a
truthy path was given, `tight_layout` and `plt.show` iff their flags are
true. -/
theorem C5_fixed_order_conditional_actions (o : FigKwargs) (f : Fig)
    (h : (wrapper o (some f)).error = none) :
    List.Chain' (· < ·) ((wrapper o (some f)).calls.map rank) ∧
    (∀ t, FigCall.suptitle t ∈ (wrapper o (some f)).calls ↔
      o.title = some t) ∧
    ((∃ w hh d, FigCall.set_size_inches w hh d ∈ (wrapper o (some f)).calls) ↔
      o.size_kwargs.isSome = true) ∧
    (∀ p, FigCall.savefig p ∈ (wrapper o (some f)).calls ↔
      o.savefig = some p ∧ p ≠ "") ∧
    (FigCall.tight_layout ∈ (wrapper o (some f)).calls ↔
      o.tight_layout = true) ∧
    (FigCall.plt_show ∈ (wrapper o (some f)).calls ↔ o.show_fig = true) := by
  rcases wrapper_ok_cases o f h with ⟨hsk, heq⟩ |
    ⟨d, w, d1, hh, d2, hsk, hw, hpop, heq⟩ <;> rw [heq] <;> dsimp only
  · refine ⟨?_, fun t => ?_, ?_, fun p => ?_, ?_, ?_⟩
    · simpa using chain_rank_blocks o [] (Or.inl rfl)
    · simp [List.mem_append, suptitle_mem_title, suptitle_not_mem_tail]
    · simp [List.mem_append, set_size_not_mem_title, set_size_not_mem_tail,
        hsk]
    · simp [List.mem_append, savefig_not_mem_title, savefig_mem_tail]
    · simp [List.mem_append, tight_not_mem_title, tight_mem_tail]
    · simp [List.mem_append, plt_show_not_mem_title, plt_show_mem_tail]
  · refine ⟨?_, fun t => ?_, ?_, fun p => ?_, ?_, ?_⟩
    · simpa [List.append_assoc] using
        chain_rank_blocks o [FigCall.set_size_inches w hh d2]
          (Or.inr ⟨w, hh, d2, rfl⟩)
    · simp [List.mem_append, suptitle_mem_title, suptitle_not_mem_tail]
    · refine ⟨fun _ => by simp [hsk], fun _ => ⟨w, hh, d2, ?_⟩⟩
      simp [List.mem_append]
    · simp [List.mem_append, savefig_not_mem_title, savefig_mem_tail]
    · simp [List.mem_append, tight_not_mem_title, tight_mem_tail]
    · simp [List.mem_append, plt_show_not_mem_title, plt_show_mem_tail]

/-- Witness for C5 on the fully-populated option set `o_all`, whose run
completes. -/
theorem C5_fixed_order_conditional_actions_witness :
    List.Chain' (· < ·) ((wrapper o_all (some 0)).calls.map rank) ∧
    (∀ t, FigCall.suptitle t ∈ (wrapper o_all (some 0)).calls ↔
      o_all.title = some t) ∧
    ((∃ w hh d, FigCall.set_size_inches w hh d ∈
      (wrapper o_all (some 0)).calls) ↔ o_all.size_kwargs.isSome = true) ∧
    (∀ p, FigCall.savefig p ∈ (wrapper o_all (some 0)).calls ↔
      o_all.savefig = some p ∧ p ≠ "") ∧
    (FigCall.tight_layout ∈ (wrapper o_all (some 0)).calls ↔
      o_all.tight_layout = true) ∧
    (FigCall.plt_show ∈ (wrapper o_all (some 0)).calls ↔
      o_all.show_fig = true) :=
  C5_fixed_order_conditional_actions o_all 0 rfl

/-- C4 counterexample: with `size_kwargs={"dpi": 100}` — a dictionary
value without a `"w"` key — the wrapper raises `KeyError` from
`size_kwargs.pop("w")` and performs no `set_size_inches` call at all (no
call whatsoever: the error aborts before them), refuting forwarding "for
every dictionary value of size_kwargs". -/
theorem C4_missing_key_counterexample :
    (wrapper o_badsize (some 0)).error = some "KeyError: w" ∧
    (wrapper o_badsize (some 0)).calls = [] ∧
    (wrapper o_badsize (some 0)).ret = none :=
  ⟨rfl, rfl, rfl⟩

/-- C4 (amended): each recognized option is forwarded verbatim to the
corresponding figure call — `title` to `fig.suptitle`, `savefig` to
`fig.savefig` — and for every `size_kwargs` dictionary that contains
`"w"` and `"h"` keys, their stored values are passed to
`fig.set_size_inches` together with, verbatim, the remaining entries of
the dictionary; a `size_kwargs` lacking `"w"` or `"h"` instead raises
`KeyError` before the resize call. -/
theorem C4_options_forwarded_verbatim (o : FigKwargs) (f : Fig)
    (d d1 d2 : List (String × ℚ)) (w hh : ℚ)
    (hsk : o.size_kwargs = some d)
    (hw : dict_pop "w" d = some (w, d1))
    (hpop : dict_pop "h" d1 = some (hh, d2)) :
    (wrapper o (some f)).error = none ∧
    FigCall.set_size_inches w hh d2 ∈ (wrapper o (some f)).calls ∧
    ("w", w) ∈ d ∧ ("h", hh) ∈ d ∧ (∀ x ∈ d2, x ∈ d) ∧
    (∀ t, o.title = some t →
      FigCall.suptitle t ∈ (wrapper o (some f)).calls) ∧
    (∀ p, o.savefig = some p → p ≠ "" →
      FigCall.savefig p ∈ (wrapper o (some f)).calls) := by
  have hcalls : wrapper o (some f) =
      ⟨title_calls o ++ [FigCall.set_size_inches w hh d2] ++ tail_calls o,
       none, some f⟩ := by
    simp [wrapper, hsk, hw, hpop]
  obtain ⟨hwmem, hsub1⟩ := dict_pop_mem _ _ _ _ hw
  obtain ⟨hhmem, hsub2⟩ := dict_pop_mem _ _ _ _ hpop
  refine ⟨by rw [hcalls], ?_, hwmem, hsub1 _ hhmem,
    fun x hx => hsub1 _ (hsub2 _ hx), ?_, ?_⟩
  · rw [hcalls]
    simp [List.mem_append]
  · intro t ht
    rw [hcalls]
    simp [List.mem_append, suptitle_mem_title, ht]
  · intro p hp hp2
    rw [hcalls]
    simp [List.mem_append, savefig_mem_tail, hp, hp2]

/-- Witness for C4 on `o_all`, whose `size_kwargs` is
`{"w": 3, "h": 4, "forward": 1}`. -/
theorem C4_options_forwarded_verbatim_witness :
    (wrapper o_all (some 0)).error = none ∧
    FigCall.set_size_inches 3 4 [("forward", 1)] ∈
      (wrapper o_all (some 0)).calls ∧
    ("w", (3 : ℚ)) ∈ [(("w" : String), (3 : ℚ)), ("h", 4), ("forward", 1)] ∧
    ("h", (4 : ℚ)) ∈ [(("w" : String), (3 : ℚ)), ("h", 4), ("forward", 1)] ∧
    (∀ x ∈ [(("forward" : String), (1 : ℚ))],
      x ∈ [(("w" : String), (3 : ℚ)), ("h", 4), ("forward", 1)]) ∧
    (∀ t, o_all.title = some t →
      FigCall.suptitle t ∈ (wrapper o_all (some 0)).calls) ∧
    (∀ p, o_all.savefig = some p → p ≠ "" →
      FigCall.savefig p ∈ (wrapper o_all (some 0)).calls) :=
  C4_options_forwarded_verbatim o_all 0
    [("w", 3), ("h", 4), ("forward", 1)] [("h", 4), ("forward", 1)]
    [("forward", 1)] 3 4 rfl rfl rfl

end Plotting
